import Mathlib

/-
Verification of the SGX reader-writer lock implementation in
src/sgx_tstd/src/sys/locks/rwlock.rs (struct RwLockInner and its
operations).

Modelling choices:
* Thread handles (sgx_thread_t, a machine word) are modelled as Nat, with
  SGX_THREAD_T_NULL = 0.  Real thread handles returned by
  rsgx_thread_self() are never the sentinel.
* SysError = Result<(), i32> is modelled as Except Int Unit.
* Every mutation of the lock state in the source happens inside a critical
  section of the SgxThreadSpinlock `lock` field; each such critical section
  is modelled as one atomic state transformation.  The spinlock itself and
  the park/wake service (mutex::thread_wait_event / thread_set_event /
  thread_set_multiple_events) are external primitives; wake calls are
  recorded as a list of WakeEvent values emitted by the transition.
* The blocking operations read and write consist of an entry critical
  section, followed (when the caller blocks) by a park / re-validate loop;
  each loop iteration is a critical section.  The full blocking operations
  are modelled as functions taking an `env : List RwLockInner`, the
  sequence of states the thread observes on re-acquiring the spinlock after
  each wake (reflecting interference by other threads while parked); the
  function returns none when the trace ends with the thread still parked.
-/

/-- Sentinel thread handle, SGX_THREAD_T_NULL from sgx_types
(thread handles sgx_thread_t are modelled as Nat throughout). -/
def SGX_THREAD_T_NULL : Nat := 0

/-- Errno value EPERM from sgx_libc. -/
def EPERM : Int := 1

/-- Errno value EBUSY from sgx_libc. -/
def EBUSY : Int := 16

/-- Errno value EDEADLK from sgx_libc. -/
def EDEADLK : Int := 35

/-- A wake call issued to the park/wake service: thread_set_event wakes the
single thread with the given handle, thread_set_multiple_events wakes every
thread whose handle is in the list. -/
inductive WakeEvent where
  | set_event (t : Nat)
  | set_multiple_events (ts : List Nat)
deriving DecidableEq, Repr

/-- Lock state, struct RwLockInner (rwlock.rs lines 151-158).  The
SgxThreadSpinlock `lock` field is the external busy-wait lock and carries
no modelled state; the other five fields are carried verbatim.
reader_count and writer_waiting are u32 in the source, modelled as Nat
(no operation can overflow them: writer_waiting is never written and
reader_count is bounded by the number of live threads). -/
structure RwLockInner where
  reader_count : Nat
  writer_waiting : Nat
  owner : Nat
  reader_queue : List Nat
  writer_queue : List Nat
deriving DecidableEq, Repr

namespace RwLockInner

/-- RwLockInner::new (rwlock.rs lines 161-170). -/
def new : RwLockInner :=
  { reader_count := 0
    writer_waiting := 0
    owner := SGX_THREAD_T_NULL
    reader_queue := []
    writer_queue := [] }

/-- Removal of the first occurrence of `current` from a wait queue,
modelling `if let Some(pos) = q.iter().position(|&w| w == current)
{ q.remove(pos); }` (rwlock.rs lines 196-202 and 247-253). -/
def remove_waiter (current : Nat) : List Nat → List Nat
  | [] => []
  | t :: ts => if t = current then ts else t :: remove_waiter current ts

/-- RwLockInner::try_read (rwlock.rs lines 211-221): under the spinlock,
if owner is the sentinel increment reader_count and return Ok, else
return Err(EBUSY). -/
def try_read (s : RwLockInner) : Except Int Unit × RwLockInner :=
  if s.owner = SGX_THREAD_T_NULL then
    (Except.ok (), { s with reader_count := s.reader_count + 1 })
  else
    (Except.error EBUSY, s)

/-- RwLockInner::try_write (rwlock.rs lines 262-274): under the spinlock,
if owner is the sentinel and reader_count is zero set owner to the caller
and return Ok, else return Err(EBUSY). -/
def try_write (current : Nat) (s : RwLockInner) : Except Int Unit × RwLockInner :=
  if s.owner = SGX_THREAD_T_NULL ∧ s.reader_count = 0 then
    (Except.ok (), { s with owner := current })
  else
    (Except.error EBUSY, s)

/-- RwLockInner::read_unlock (rwlock.rs lines 276-295): Err(EPERM) when
reader_count is zero; otherwise decrement reader_count, and when it
reaches zero wake the front of writer_queue (if any) without dequeuing
it. -/
def read_unlock (s : RwLockInner) : Except Int Unit × RwLockInner × List WakeEvent :=
  if s.reader_count = 0 then
    (Except.error EPERM, s, [])
  else
    let s1 := { s with reader_count := s.reader_count - 1 }
    if s1.reader_count = 0 then
      match s1.writer_queue.head? with
      | some td => (Except.ok (), s1, [WakeEvent.set_event td])
      | none => (Except.ok (), s1, [])
    else
      (Except.ok (), s1, [])

/-- RwLockInner::write_unlock (rwlock.rs lines 297-323): Err(EPERM) when
the caller is not owner; otherwise clear owner to the sentinel, then if
reader_queue is non-empty broadcast-wake every queued reader, else wake
the front of writer_queue (if any). -/
def write_unlock (current : Nat) (s : RwLockInner) :
    Except Int Unit × RwLockInner × List WakeEvent :=
  if s.owner ≠ current then
    (Except.error EPERM, s, [])
  else
    let s1 := { s with owner := SGX_THREAD_T_NULL }
    if !s1.reader_queue.isEmpty then
      (Except.ok (), s1, [WakeEvent.set_multiple_events s1.reader_queue])
    else
      match s1.writer_queue.head? with
      | some td => (Except.ok (), s1, [WakeEvent.set_event td])
      | none => (Except.ok (), s1, [])

/-- RwLockInner::unlock (rwlock.rs lines 325-331): dispatch to
write_unlock when the caller is owner, else to read_unlock. -/
def unlock (current : Nat) (s : RwLockInner) :
    Except Int Unit × RwLockInner × List WakeEvent :=
  if s.owner = current then write_unlock current s else read_unlock s

/-- RwLockInner::is_locked (rwlock.rs lines 341-350). -/
def is_locked (s : RwLockInner) : Bool :=
  decide (s.owner ≠ SGX_THREAD_T_NULL) || decide (s.reader_count ≠ 0) ||
    decide (s.writer_waiting ≠ 0) || !s.reader_queue.isEmpty ||
    !s.writer_queue.isEmpty

/-- RwLockInner::destroy (rwlock.rs lines 333-339): Err(EBUSY) when
is_locked, else Ok; never mutates the state. -/
def destroy (s : RwLockInner) : Except Int Unit × RwLockInner :=
  if is_locked s then (Except.error EBUSY, s) else (Except.ok (), s)

/-- One wake / re-validate iteration of RwLockInner::read (rwlock.rs
lines 193-204): on re-acquiring the spinlock, if owner is the sentinel,
increment reader_count, remove self from reader_queue and succeed;
otherwise (none) park again. -/
def read_recheck (current : Nat) (s : RwLockInner) :
    Option (Except Int Unit × RwLockInner) :=
  if s.owner = SGX_THREAD_T_NULL then
    some (Except.ok (), { s with
      reader_count := s.reader_count + 1
      reader_queue := remove_waiter current s.reader_queue })
  else
    none

/-- The park / re-validate loop of RwLockInner::read (rwlock.rs lines
186-205), run against the trace of states observed after each wake. -/
def read_loop (current : Nat) : List RwLockInner → Option (Except Int Unit × RwLockInner)
  | [] => none
  | s :: rest =>
    match read_recheck current s with
    | some r => some r
    | none => read_loop current rest

/-- RwLockInner::read (rwlock.rs lines 172-209).  Entry critical section:
if owner is the sentinel, increment reader_count and succeed at once;
if owner is the caller, fail with EDEADLK; otherwise push the caller onto
reader_queue, park, and loop.  `env` is the trace of states observed on
re-acquiring the spinlock after each wake (these states already include
the caller's enqueue and any interference while parked); none means the
trace ended with the caller still parked. -/
def read (current : Nat) (s : RwLockInner) (env : List RwLockInner) :
    Option (Except Int Unit × RwLockInner) :=
  if s.owner = SGX_THREAD_T_NULL then
    some (Except.ok (), { s with reader_count := s.reader_count + 1 })
  else if s.owner = current then
    some (Except.error EDEADLK, s)
  else
    read_loop current env

/-- One wake / re-validate iteration of RwLockInner::write (rwlock.rs
lines 244-255): on re-acquiring the spinlock, if owner is the sentinel
and reader_count is zero, set owner to self, remove self from
writer_queue and succeed; otherwise (none) park again. -/
def write_recheck (current : Nat) (s : RwLockInner) :
    Option (Except Int Unit × RwLockInner) :=
  if s.owner = SGX_THREAD_T_NULL ∧ s.reader_count = 0 then
    some (Except.ok (), { s with
      owner := current
      writer_queue := remove_waiter current s.writer_queue })
  else
    none

/-- The park / re-validate loop of RwLockInner::write (rwlock.rs lines
237-256). -/
def write_loop (current : Nat) : List RwLockInner → Option (Except Int Unit × RwLockInner)
  | [] => none
  | s :: rest =>
    match write_recheck current s with
    | some r => some r
    | none => write_loop current rest

/-- RwLockInner::write (rwlock.rs lines 223-260).  Entry critical
section: if owner is the sentinel and reader_count is zero, take
ownership and succeed; if owner is the caller, fail with EDEADLK;
otherwise push the caller onto writer_queue, park, and loop over `env`
as in `read`. -/
def write (current : Nat) (s : RwLockInner) (env : List RwLockInner) :
    Option (Except Int Unit × RwLockInner) :=
  if s.owner = SGX_THREAD_T_NULL ∧ s.reader_count = 0 then
    some (Except.ok (), { s with owner := current })
  else if s.owner = current then
    some (Except.error EDEADLK, s)
  else
    write_loop current env

/-- State effect of the entry critical section of RwLockInner::read
(rwlock.rs lines 175-185 plus the enqueue at line 184): fast-path
increment, deadlock error (no change), or enqueue of the caller. -/
def read_enter (current : Nat) (s : RwLockInner) : RwLockInner :=
  if s.owner = SGX_THREAD_T_NULL then
    { s with reader_count := s.reader_count + 1 }
  else if s.owner = current then
    s
  else
    { s with reader_queue := s.reader_queue ++ [current] }

/-- State effect of one wake / re-validate critical section of
RwLockInner::read: either the successful re-check or no change (park
again). -/
def read_retry (current : Nat) (s : RwLockInner) : RwLockInner :=
  match read_recheck current s with
  | some (_, s1) => s1
  | none => s

/-- State effect of the entry critical section of RwLockInner::write
(rwlock.rs lines 226-235). -/
def write_enter (current : Nat) (s : RwLockInner) : RwLockInner :=
  if s.owner = SGX_THREAD_T_NULL ∧ s.reader_count = 0 then
    { s with owner := current }
  else if s.owner = current then
    s
  else
    { s with writer_queue := s.writer_queue ++ [current] }

/-- State effect of one wake / re-validate critical section of
RwLockInner::write. -/
def write_retry (current : Nat) (s : RwLockInner) : RwLockInner :=
  match write_recheck current s with
  | some (_, s1) => s1
  | none => s

/-- One atomic critical section of any operation, performed by some
thread t.  Every mutation of the lock state in rwlock.rs occurs in
exactly one of these sections (is_locked and destroy never mutate, and
are included for completeness). -/
inductive Step : RwLockInner → RwLockInner → Prop where
  | read_enter_step (t : Nat) (s : RwLockInner) : Step s (read_enter t s)
  | read_retry_step (t : Nat) (s : RwLockInner) : Step s (read_retry t s)
  | write_enter_step (t : Nat) (s : RwLockInner) : Step s (write_enter t s)
  | write_retry_step (t : Nat) (s : RwLockInner) : Step s (write_retry t s)
  | try_read_step (s : RwLockInner) : Step s (try_read s).2
  | try_write_step (t : Nat) (s : RwLockInner) : Step s (try_write t s).2
  | read_unlock_step (s : RwLockInner) : Step s (read_unlock s).2.1
  | write_unlock_step (t : Nat) (s : RwLockInner) : Step s (write_unlock t s).2.1
  | unlock_step (t : Nat) (s : RwLockInner) : Step s (unlock t s).2.1
  | destroy_step (s : RwLockInner) : Step s (destroy s).2

/-- States reachable from the freshly constructed lock by any
interleaving of operation critical sections. -/
inductive Reachable : RwLockInner → Prop where
  | init : Reachable new
  | step {s s1 : RwLockInner} : Reachable s → Step s s1 → Reachable s1

/-- The mutual-exclusion invariant: an exclusive owner excludes readers
and vice versa. -/
def MutexInv (s : RwLockInner) : Prop :=
  (s.owner ≠ SGX_THREAD_T_NULL → s.reader_count = 0) ∧
  (0 < s.reader_count → s.owner = SGX_THREAD_T_NULL)

theorem destroy_state (s : RwLockInner) : (destroy s).2 = s := by
  unfold destroy
  split <;> rfl

theorem read_unlock_state (s : RwLockInner) :
    (read_unlock s).2.1 =
      if s.reader_count = 0 then s
      else { s with reader_count := s.reader_count - 1 } := by
  unfold read_unlock
  by_cases h : s.reader_count = 0 <;> simp [h]
  all_goals first
    | rfl
    | (split <;> first | rfl | (split <;> rfl))

theorem write_unlock_state (current : Nat) (s : RwLockInner) :
    (write_unlock current s).2.1 =
      if s.owner = current then { s with owner := SGX_THREAD_T_NULL }
      else s := by
  unfold write_unlock
  by_cases h : s.owner = current <;> simp [h]
  all_goals first
    | rfl
    | (split <;> first | rfl | (split <;> rfl))

theorem read_unlock_ret (s : RwLockInner) :
    (read_unlock s).1 =
      if s.reader_count = 0 then Except.error EPERM else Except.ok () := by
  unfold read_unlock
  by_cases h : s.reader_count = 0 <;> simp [h]
  all_goals first
    | rfl
    | (split <;> first | rfl | (split <;> rfl))

theorem read_unlock_wakes (s : RwLockInner) :
    (read_unlock s).2.2 =
      if s.reader_count = 0 then []
      else if s.reader_count - 1 = 0 then
        match s.writer_queue.head? with
        | some td => [WakeEvent.set_event td]
        | none => []
      else [] := by
  unfold read_unlock
  by_cases h : s.reader_count = 0 <;> simp [h]
  all_goals first
    | rfl
    | (split <;> first | rfl | (split <;> rfl))

theorem write_unlock_ret (current : Nat) (s : RwLockInner) :
    (write_unlock current s).1 =
      if s.owner = current then Except.ok () else Except.error EPERM := by
  unfold write_unlock
  by_cases h : s.owner = current <;> simp [h]
  all_goals first
    | rfl
    | (split <;> first | rfl | (split <;> rfl))

theorem write_unlock_wakes (current : Nat) (s : RwLockInner) :
    (write_unlock current s).2.2 =
      if s.owner = current then
        if s.reader_queue.isEmpty then
          match s.writer_queue.head? with
          | some td => [WakeEvent.set_event td]
          | none => []
        else [WakeEvent.set_multiple_events s.reader_queue]
      else [] := by
  unfold write_unlock
  by_cases h : s.owner = current <;> simp [h]
  all_goals first
    | rfl
    | (split <;> first | rfl | (split <;> rfl))

theorem mutexInv_step {s s1 : RwLockInner} (h : MutexInv s) (hs : Step s s1) :
    MutexInv s1 := by
  obtain ⟨h1, h2⟩ := h
  cases hs with
  | read_enter_step t s =>
      unfold read_enter
      split_ifs with ha hb
      · exact ⟨fun hc => absurd ha hc, fun _ => ha⟩
      · exact ⟨h1, h2⟩
      · exact ⟨h1, h2⟩
  | read_retry_step t s =>
      unfold read_retry read_recheck
      split_ifs with ha
      · exact ⟨fun hc => absurd ha hc, fun _ => ha⟩
      · exact ⟨h1, h2⟩
  | write_enter_step t s =>
      unfold write_enter
      split_ifs with ha hb
      · exact ⟨fun _ => ha.2, by simp [ha.2]⟩
      · exact ⟨h1, h2⟩
      · exact ⟨h1, h2⟩
  | write_retry_step t s =>
      unfold write_retry write_recheck
      split_ifs with ha
      · exact ⟨fun _ => ha.2, by simp [ha.2]⟩
      · exact ⟨h1, h2⟩
  | try_read_step s =>
      unfold try_read
      split_ifs with ha
      · exact ⟨fun hc => absurd ha hc, fun _ => ha⟩
      · exact ⟨h1, h2⟩
  | try_write_step t s =>
      unfold try_write
      split_ifs with ha
      · exact ⟨fun _ => ha.2, by simp [ha.2]⟩
      · exact ⟨h1, h2⟩
  | read_unlock_step s =>
      rw [read_unlock_state]
      split_ifs with ha
      · exact ⟨h1, h2⟩
      · refine ⟨fun hc => absurd (h1 hc) ha, fun hc => h2 ?_⟩
        omega
  | write_unlock_step t s =>
      rw [write_unlock_state]
      split_ifs with ha
      · exact ⟨fun hc => absurd rfl hc, fun _ => rfl⟩
      · exact ⟨h1, h2⟩
  | unlock_step t s =>
      unfold unlock
      split_ifs with ha
      · rw [write_unlock_state, if_pos ha]
        exact ⟨fun hc => absurd rfl hc, fun _ => rfl⟩
      · rw [read_unlock_state]
        split_ifs with hb
        · exact ⟨h1, h2⟩
        · refine ⟨fun hc => absurd (h1 hc) hb, fun hc => h2 ?_⟩
          omega
  | destroy_step s =>
      rw [destroy_state]
      exact ⟨h1, h2⟩

theorem mutexInv_reachable {s : RwLockInner} (h : Reachable s) : MutexInv s := by
  induction h with
  | init => exact ⟨fun _ => rfl, by simp [new]⟩
  | step _ hstep ih => exact mutexInv_step ih hstep

theorem read_recheck_ok {current : Nat} {s s1 : RwLockInner} {r : Except Int Unit}
    (h : read_recheck current s = some (r, s1)) : r = Except.ok () := by
  unfold read_recheck at h
  split_ifs at h
  exact (Prod.mk.injEq _ _ _ _ ▸ Option.some.injEq _ _ ▸ h).1.symm

theorem read_loop_ok (current : Nat) :
    ∀ (env : List RwLockInner) (r : Except Int Unit) (s1 : RwLockInner),
      read_loop current env = some (r, s1) → r = Except.ok ()
  | [], _, _, h => by cases h
  | s :: rest, r, s1, h => by
      unfold read_loop at h
      cases hr : read_recheck current s with
      | some p =>
          rw [hr] at h
          injection h with h2
          exact read_recheck_ok (h2 ▸ hr)
      | none =>
          rw [hr] at h
          exact read_loop_ok current rest r s1 h

theorem write_recheck_ok {current : Nat} {s s1 : RwLockInner} {r : Except Int Unit}
    (h : write_recheck current s = some (r, s1)) : r = Except.ok () := by
  unfold write_recheck at h
  split_ifs at h
  exact (Prod.mk.injEq _ _ _ _ ▸ Option.some.injEq _ _ ▸ h).1.symm

theorem write_loop_ok (current : Nat) :
    ∀ (env : List RwLockInner) (r : Except Int Unit) (s1 : RwLockInner),
      write_loop current env = some (r, s1) → r = Except.ok ()
  | [], _, _, h => by cases h
  | s :: rest, r, s1, h => by
      unfold write_loop at h
      cases hr : write_recheck current s with
      | some p =>
          rw [hr] at h
          injection h with h2
          exact write_recheck_ok (h2 ▸ hr)
      | none =>
          rw [hr] at h
          exact write_loop_ok current rest r s1 h

theorem is_locked_iff_of_quiet_waiting {s : RwLockInner} (h : s.writer_waiting = 0) :
    is_locked s = true ↔
      (s.owner ≠ SGX_THREAD_T_NULL ∨ 0 < s.reader_count ∨
        s.reader_queue ≠ [] ∨ s.writer_queue ≠ []) := by
  unfold is_locked
  simp [h, List.isEmpty_iff, Nat.pos_iff_ne_zero, or_assoc]

/-- C1: Mutual exclusion invariant: in every state reachable by any
sequence of the operation critical sections (i.e. observed while no
thread holds the protecting busy-wait lock), owner ≠ SGX_THREAD_T_NULL
implies reader_count = 0, and reader_count > 0 implies
owner = SGX_THREAD_T_NULL. -/
theorem mutual_exclusion_invariant (s : RwLockInner) (h : Reachable s) :
    (s.owner ≠ SGX_THREAD_T_NULL → s.reader_count = 0) ∧
    (0 < s.reader_count → s.owner = SGX_THREAD_T_NULL) :=
  mutexInv_reachable h

theorem mutual_exclusion_invariant_witness :
    ((try_read new).2.owner ≠ SGX_THREAD_T_NULL → (try_read new).2.reader_count = 0) ∧
    (0 < (try_read new).2.reader_count → (try_read new).2.owner = SGX_THREAD_T_NULL) :=
  mutual_exclusion_invariant (try_read new).2
    (Reachable.step Reachable.init (Step.try_read_step new))

/-- C2: write_unlock returns NotPermitted (EPERM) when the caller is not
the current owner, leaving the whole state unchanged and issuing no wake;
otherwise it returns success, sets owner to the sentinel (touching nothing
else), and applies the reader-preferring release policy: when
reader_queue is non-empty it broadcast-wakes all of reader_queue,
otherwise it single-wakes the head of writer_queue when one exists. -/
theorem write_unlock_spec (current : Nat) (s : RwLockInner) :
    (s.owner ≠ current → write_unlock current s = (Except.error EPERM, s, [])) ∧
    (s.owner = current →
      (write_unlock current s).1 = Except.ok () ∧
      (write_unlock current s).2.1 = { s with owner := SGX_THREAD_T_NULL } ∧
      (s.reader_queue ≠ [] →
        (write_unlock current s).2.2 = [WakeEvent.set_multiple_events s.reader_queue]) ∧
      (∀ td tl, s.reader_queue = [] → s.writer_queue = td :: tl →
        (write_unlock current s).2.2 = [WakeEvent.set_event td]) ∧
      (s.reader_queue = [] → s.writer_queue = [] →
        (write_unlock current s).2.2 = [])) := by
  refine ⟨fun hne => ?_,
    fun he => ⟨?_, ?_, fun hq => ?_, fun td tl hq hw => ?_, fun hq hw => ?_⟩⟩
  · have h1 := write_unlock_ret current s
    have h2 := write_unlock_state current s
    have h3 := write_unlock_wakes current s
    rw [if_neg hne] at h1 h2 h3
    exact Prod.ext_iff.mpr ⟨h1, Prod.ext_iff.mpr ⟨h2, h3⟩⟩
  · rw [write_unlock_ret, if_pos he]
  · rw [write_unlock_state, if_pos he]
  · rw [write_unlock_wakes, if_pos he,
      if_neg (fun hc => hq (List.isEmpty_iff.mp hc))]
  · rw [write_unlock_wakes, if_pos he, hq, hw]
    rfl
  · rw [write_unlock_wakes, if_pos he, hq, hw]
    rfl

theorem write_unlock_spec_witness :
    write_unlock 5 (⟨0, 0, 7, [2, 3], [9]⟩ : RwLockInner) =
      (Except.error EPERM, (⟨0, 0, 7, [2, 3], [9]⟩ : RwLockInner), []) ∧
    (write_unlock 7 (⟨0, 0, 7, [2, 3], [9]⟩ : RwLockInner)).2.2 =
      [WakeEvent.set_multiple_events [2, 3]] :=
  ⟨(write_unlock_spec 5 ⟨0, 0, 7, [2, 3], [9]⟩).1 (by decide),
   ((write_unlock_spec 7 ⟨0, 0, 7, [2, 3], [9]⟩).2 rfl).2.2.1 (by decide)⟩

/-- C3: read_unlock returns NotPermitted (EPERM) when reader_count = 0
(no caller identity is consulted: the function takes no thread argument),
leaving the state unchanged; otherwise it returns success and decrements
reader_count by exactly one, leaving both queues untouched; when the
count reaches zero it single-wakes the head of writer_queue when one
exists (without dequeuing it), and when the count stays positive no wake
is issued. -/
theorem read_unlock_spec (s : RwLockInner) :
    (s.reader_count = 0 → read_unlock s = (Except.error EPERM, s, [])) ∧
    (0 < s.reader_count →
      (read_unlock s).1 = Except.ok () ∧
      (read_unlock s).2.1 = { s with reader_count := s.reader_count - 1 } ∧
      (∀ td tl, s.reader_count = 1 → s.writer_queue = td :: tl →
        (read_unlock s).2.2 = [WakeEvent.set_event td]) ∧
      (s.reader_count = 1 → s.writer_queue = [] → (read_unlock s).2.2 = []) ∧
      (1 < s.reader_count → (read_unlock s).2.2 = [])) := by
  refine ⟨fun h0 => ?_,
    fun hpos => ⟨?_, ?_, fun td tl hrc hw => ?_, fun hrc hw => ?_, fun hgt => ?_⟩⟩
  · have h1 := read_unlock_ret s
    have h2 := read_unlock_state s
    have h3 := read_unlock_wakes s
    rw [if_pos h0] at h1 h2 h3
    exact Prod.ext_iff.mpr ⟨h1, Prod.ext_iff.mpr ⟨h2, h3⟩⟩
  · rw [read_unlock_ret, if_neg (Nat.pos_iff_ne_zero.mp hpos)]
  · rw [read_unlock_state, if_neg (Nat.pos_iff_ne_zero.mp hpos)]
  · rw [read_unlock_wakes, if_neg (Nat.pos_iff_ne_zero.mp hpos),
      if_pos (by omega : s.reader_count - 1 = 0), hw]
    rfl
  · rw [read_unlock_wakes, if_neg (Nat.pos_iff_ne_zero.mp hpos),
      if_pos (by omega : s.reader_count - 1 = 0), hw]
    rfl
  · rw [read_unlock_wakes, if_neg (Nat.pos_iff_ne_zero.mp hpos),
      if_neg (by omega : ¬s.reader_count - 1 = 0)]

theorem read_unlock_spec_witness :
    read_unlock (⟨1, 0, SGX_THREAD_T_NULL, [], [4]⟩ : RwLockInner) =
      (Except.ok (), (⟨0, 0, SGX_THREAD_T_NULL, [], [4]⟩ : RwLockInner),
        [WakeEvent.set_event 4]) ∧
    read_unlock (⟨0, 0, SGX_THREAD_T_NULL, [], [4]⟩ : RwLockInner) =
      (Except.error EPERM, (⟨0, 0, SGX_THREAD_T_NULL, [], [4]⟩ : RwLockInner), []) := by
  constructor
  · have h := (read_unlock_spec ⟨1, 0, SGX_THREAD_T_NULL, [], [4]⟩).2 (by decide)
    have h1 := h.1
    have h2 := h.2.1
    have h3 := h.2.2.1 4 [] rfl rfl
    rw [Prod.ext_iff, Prod.ext_iff]
    exact ⟨h1, h2, h3⟩
  · exact (read_unlock_spec ⟨0, 0, SGX_THREAD_T_NULL, [], [4]⟩).1 rfl

/-- C4: try_read succeeds exactly when owner = SGX_THREAD_T_NULL, in
which case it increments reader_count by one and changes nothing else;
otherwise it returns Busy (EBUSY) with the state unchanged.  Its result
never depends on writer_queue, and it is a total function of the entry
state (it never blocks). -/
theorem try_read_spec (s : RwLockInner) :
    ((try_read s).1 = Except.ok () ↔ s.owner = SGX_THREAD_T_NULL) ∧
    (s.owner = SGX_THREAD_T_NULL →
      (try_read s).2 = { s with reader_count := s.reader_count + 1 }) ∧
    (s.owner ≠ SGX_THREAD_T_NULL → try_read s = (Except.error EBUSY, s)) ∧
    (∀ q : List Nat,
      (try_read { s with writer_queue := q }).1 = (try_read s).1 ∧
      (try_read { s with writer_queue := q }).2 =
        { (try_read s).2 with writer_queue := q }) := by
  unfold try_read
  by_cases h : s.owner = SGX_THREAD_T_NULL <;> simp [h]

theorem try_read_spec_witness :
    try_read (⟨2, 0, SGX_THREAD_T_NULL, [], [9]⟩ : RwLockInner) =
      (Except.ok (), (⟨3, 0, SGX_THREAD_T_NULL, [], [9]⟩ : RwLockInner)) ∧
    try_read (⟨0, 0, 7, [], []⟩ : RwLockInner) =
      (Except.error EBUSY, (⟨0, 0, 7, [], []⟩ : RwLockInner)) := by
  constructor
  · have h1 := (try_read_spec ⟨2, 0, SGX_THREAD_T_NULL, [], [9]⟩).1.mpr rfl
    have h2 := (try_read_spec ⟨2, 0, SGX_THREAD_T_NULL, [], [9]⟩).2.1 rfl
    rw [Prod.ext_iff]
    exact ⟨by rw [h1], h2⟩
  · exact (try_read_spec ⟨0, 0, 7, [], []⟩).2.2.1 (by decide)

/-- C5: try_write succeeds exactly when owner = SGX_THREAD_T_NULL and
reader_count = 0, in which case it sets owner to the caller and changes
nothing else; otherwise it returns Busy (EBUSY) with the state
unchanged.  It is a total function of the entry state (it never
blocks). -/
theorem try_write_spec (current : Nat) (s : RwLockInner) :
    ((try_write current s).1 = Except.ok () ↔
      (s.owner = SGX_THREAD_T_NULL ∧ s.reader_count = 0)) ∧
    (s.owner = SGX_THREAD_T_NULL → s.reader_count = 0 →
      (try_write current s).2 = { s with owner := current }) ∧
    (¬(s.owner = SGX_THREAD_T_NULL ∧ s.reader_count = 0) →
      try_write current s = (Except.error EBUSY, s)) := by
  unfold try_write
  by_cases h : s.owner = SGX_THREAD_T_NULL ∧ s.reader_count = 0 <;> simp [h]
  exact fun h1 h2 => absurd ⟨h1, h2⟩ h

theorem try_write_spec_witness :
    try_write 5 (⟨0, 0, SGX_THREAD_T_NULL, [], []⟩ : RwLockInner) =
      (Except.ok (), (⟨0, 0, 5, [], []⟩ : RwLockInner)) ∧
    try_write 5 (⟨2, 0, SGX_THREAD_T_NULL, [], []⟩ : RwLockInner) =
      (Except.error EBUSY, (⟨2, 0, SGX_THREAD_T_NULL, [], []⟩ : RwLockInner)) := by
  constructor
  · have h1 := (try_write_spec 5 ⟨0, 0, SGX_THREAD_T_NULL, [], []⟩).1.mpr ⟨rfl, rfl⟩
    have h2 := (try_write_spec 5 ⟨0, 0, SGX_THREAD_T_NULL, [], []⟩).2.1 rfl rfl
    rw [Prod.ext_iff]
    exact ⟨by rw [h1], h2⟩
  · exact (try_write_spec 5 ⟨2, 0, SGX_THREAD_T_NULL, [], []⟩).2.2 (by decide)

/-- C6: whenever owner = SGX_THREAD_T_NULL at entry, blocking read
increments reader_count by one and returns success immediately: the
result is independent of the wake trace `env` (no parking) and leaves
both queues untouched (no enqueueing), whatever writer_queue holds. -/
theorem read_fast_path_reader_preferring (current : Nat) (s : RwLockInner)
    (env : List RwLockInner) (h : s.owner = SGX_THREAD_T_NULL) :
    read current s env =
      some (Except.ok (), { s with reader_count := s.reader_count + 1 }) := by
  unfold read
  rw [if_pos h]

theorem read_fast_path_reader_preferring_witness :
    read 5 (⟨0, 0, SGX_THREAD_T_NULL, [], [9]⟩ : RwLockInner) [] =
      some (Except.ok (), (⟨1, 0, SGX_THREAD_T_NULL, [], [9]⟩ : RwLockInner)) :=
  read_fast_path_reader_preferring 5 ⟨0, 0, SGX_THREAD_T_NULL, [], [9]⟩ [] rfl

/-- C7: blocking read and blocking write return an error exactly when the
caller equals the current owner at entry, the error is always EDEADLK
(never EBUSY or EPERM), and the state is left unchanged; conversely, for
a real thread handle (handles never equal the sentinel, which is reserved)
equal to the owner, both immediately return EDEADLK. -/
theorem blocking_acquire_deadlock_spec (current : Nat) (s : RwLockInner)
    (env : List RwLockInner) :
    (∀ e s1, read current s env = some (Except.error e, s1) →
      e = EDEADLK ∧ s.owner = current ∧ s1 = s) ∧
    (∀ e s1, write current s env = some (Except.error e, s1) →
      e = EDEADLK ∧ s.owner = current ∧ s1 = s) ∧
    (current ≠ SGX_THREAD_T_NULL → s.owner = current →
      read current s env = some (Except.error EDEADLK, s) ∧
      write current s env = some (Except.error EDEADLK, s)) := by
  refine ⟨fun e s1 h => ?_, fun e s1 h => ?_, fun hn ho => ?_⟩
  · unfold read at h
    split_ifs at h with h1 h2
    · rw [Option.some.injEq, Prod.mk.injEq] at h
      exact Except.noConfusion h.1
    · rw [Option.some.injEq, Prod.mk.injEq] at h
      obtain ⟨h3, h4⟩ := h
      injection h3 with h5
      exact ⟨h5.symm, h2, h4.symm⟩
    · exact Except.noConfusion (read_loop_ok current env _ _ h)
  · unfold write at h
    split_ifs at h with h1 h2
    · rw [Option.some.injEq, Prod.mk.injEq] at h
      exact Except.noConfusion h.1
    · rw [Option.some.injEq, Prod.mk.injEq] at h
      obtain ⟨h3, h4⟩ := h
      injection h3 with h5
      exact ⟨h5.symm, h2, h4.symm⟩
    · exact Except.noConfusion (write_loop_ok current env _ _ h)
  · have hno : ¬s.owner = SGX_THREAD_T_NULL := fun hc => hn (ho.symm.trans hc)
    constructor
    · unfold read
      rw [if_neg hno, if_pos ho]
    · unfold write
      rw [if_neg (fun hc => hno hc.1), if_pos ho]

theorem blocking_acquire_deadlock_spec_witness :
    read 5 (⟨0, 0, 5, [], []⟩ : RwLockInner) [] =
      some (Except.error EDEADLK, (⟨0, 0, 5, [], []⟩ : RwLockInner)) ∧
    write 5 (⟨0, 0, 5, [], []⟩ : RwLockInner) [] =
      some (Except.error EDEADLK, (⟨0, 0, 5, [], []⟩ : RwLockInner)) ∧
    EDEADLK = EDEADLK :=
  ⟨((blocking_acquire_deadlock_spec 5 ⟨0, 0, 5, [], []⟩ []).2.2 (by decide) rfl).1,
   ((blocking_acquire_deadlock_spec 5 ⟨0, 0, 5, [], []⟩ []).2.2 (by decide) rfl).2,
   ((blocking_acquire_deadlock_spec 5 ⟨0, 0, 5, [], []⟩ []).1 EDEADLK
      ⟨0, 0, 5, [], []⟩ rfl).1⟩

/-- C8: on any state whose writer_waiting field is zero (which, by the
theorem for C9, covers every reachable state), destroy returns Busy
(EBUSY) exactly when owner ≠ SGX_THREAD_T_NULL, or reader_count > 0, or
reader_queue is non-empty, or writer_queue is non-empty; on a quiescent
state it returns success, and is_locked is true exactly under that
four-way disjunction. -/
theorem destroy_iff_nonquiescent (s : RwLockInner) (h : s.writer_waiting = 0) :
    (is_locked s = true ↔
      (s.owner ≠ SGX_THREAD_T_NULL ∨ 0 < s.reader_count ∨
        s.reader_queue ≠ [] ∨ s.writer_queue ≠ [])) ∧
    (destroy s = (Except.error EBUSY, s) ↔
      (s.owner ≠ SGX_THREAD_T_NULL ∨ 0 < s.reader_count ∨
        s.reader_queue ≠ [] ∨ s.writer_queue ≠ [])) ∧
    (s.owner = SGX_THREAD_T_NULL → s.reader_count = 0 →
      s.reader_queue = [] → s.writer_queue = [] →
      destroy s = (Except.ok (), s)) := by
  have hiff := is_locked_iff_of_quiet_waiting h
  refine ⟨hiff, ?_, fun h1 h2 h3 h4 => ?_⟩
  · rw [← hiff]
    unfold destroy
    constructor
    · intro hd
      by_cases hl : is_locked s = true
      · exact hl
      · rw [if_neg hl, Prod.mk.injEq] at hd
        exact Except.noConfusion hd.1
    · intro hl
      rw [if_pos hl]
  · have hnl : ¬is_locked s = true := fun hc => by
      rcases hiff.mp hc with h5 | h5 | h5 | h5
      · exact h5 h1
      · omega
      · exact h5 h3
      · exact h5 h4
    unfold destroy
    rw [if_neg hnl]

theorem destroy_iff_nonquiescent_witness :
    destroy new = (Except.ok (), new) ∧
    destroy (⟨0, 0, 7, [], []⟩ : RwLockInner) =
      (Except.error EBUSY, (⟨0, 0, 7, [], []⟩ : RwLockInner)) :=
  ⟨(destroy_iff_nonquiescent new rfl).2.2 rfl rfl rfl rfl,
   (destroy_iff_nonquiescent ⟨0, 0, 7, [], []⟩ rfl).2.1.mpr (Or.inl (by decide))⟩

theorem step_preserves_writer_waiting {s s1 : RwLockInner} (hs : Step s s1) :
    s1.writer_waiting = s.writer_waiting := by
  cases hs with
  | read_enter_step t s => unfold read_enter; split_ifs <;> rfl
  | read_retry_step t s => unfold read_retry read_recheck; split_ifs <;> rfl
  | write_enter_step t s => unfold write_enter; split_ifs <;> rfl
  | write_retry_step t s => unfold write_retry write_recheck; split_ifs <;> rfl
  | try_read_step s => unfold try_read; split_ifs <;> rfl
  | try_write_step t s => unfold try_write; split_ifs <;> rfl
  | read_unlock_step s => rw [read_unlock_state]; split_ifs <;> rfl
  | write_unlock_step t s => rw [write_unlock_state]; split_ifs <;> rfl
  | unlock_step t s =>
      unfold unlock
      split_ifs with ha
      · rw [write_unlock_state, if_pos ha]
      · rw [read_unlock_state]
        split_ifs <;> rfl
  | destroy_step s => rw [destroy_state]

theorem reachable_writer_waiting {s : RwLockInner} (h : Reachable s) :
    s.writer_waiting = 0 := by
  induction h with
  | init => rfl
  | step _ hstep ih =>
      rw [step_preserves_writer_waiting hstep]
      exact ih

/-- C9: writer_waiting is zero in the initial state, no operation
critical section ever changes it, so it is zero in every reachable
state; consequently whenever is_locked is true on a reachable state, one
of the other four disjuncts (owner, reader_count, or a non-empty queue)
already holds, so the writer_waiting ≠ 0 disjunct is never the deciding
condition. -/
theorem writer_waiting_vestigial :
    new.writer_waiting = 0 ∧
    (∀ s s1 : RwLockInner, Step s s1 → s1.writer_waiting = s.writer_waiting) ∧
    (∀ s : RwLockInner, Reachable s → s.writer_waiting = 0) ∧
    (∀ s : RwLockInner, Reachable s → is_locked s = true →
      s.owner ≠ SGX_THREAD_T_NULL ∨ 0 < s.reader_count ∨
        s.reader_queue ≠ [] ∨ s.writer_queue ≠ []) :=
  ⟨rfl, fun _ _ hs => step_preserves_writer_waiting hs,
   fun _ h => reachable_writer_waiting h,
   fun _ h hl => (is_locked_iff_of_quiet_waiting (reachable_writer_waiting h)).mp hl⟩

theorem writer_waiting_vestigial_witness :
    (try_write 5 new).2.writer_waiting = 0 :=
  writer_waiting_vestigial.2.2.1 (try_write 5 new).2
    (Reachable.step Reachable.init (Step.try_write_step 5 new))

theorem read_unlock_error_atomic {s s1 : RwLockInner} {e : Int}
    {w : List WakeEvent} (h : read_unlock s = (Except.error e, s1, w)) :
    s1 = s ∧ w = [] := by
  have h1 := read_unlock_ret s
  have h2 := read_unlock_state s
  have h3 := read_unlock_wakes s
  by_cases hc : s.reader_count = 0
  · rw [h, if_pos hc] at h2 h3
    exact ⟨h2, h3⟩
  · rw [h, if_neg hc] at h1
    exact Except.noConfusion h1

theorem write_unlock_error_atomic {current : Nat} {s s1 : RwLockInner} {e : Int}
    {w : List WakeEvent} (h : write_unlock current s = (Except.error e, s1, w)) :
    s1 = s ∧ w = [] := by
  have h1 := write_unlock_ret current s
  have h2 := write_unlock_state current s
  have h3 := write_unlock_wakes current s
  by_cases hc : s.owner = current
  · rw [h, if_pos hc] at h1
    exact Except.noConfusion h1
  · rw [h, if_neg hc] at h2 h3
    exact ⟨h2, h3⟩

/-- C10: every error return leaves the lock state exactly as it was at
entry and issues no wake: try_read and try_write returning Busy,
read_unlock, write_unlock and unlock returning NotPermitted, blocking
read and write returning WouldDeadlock, and destroy returning Busy. -/
theorem error_atomicity (current : Nat) (s s1 : RwLockInner)
    (env : List RwLockInner) :
    (∀ e, try_read s = (Except.error e, s1) → s1 = s) ∧
    (∀ e, try_write current s = (Except.error e, s1) → s1 = s) ∧
    (∀ e w, read_unlock s = (Except.error e, s1, w) → s1 = s ∧ w = []) ∧
    (∀ e w, write_unlock current s = (Except.error e, s1, w) → s1 = s ∧ w = []) ∧
    (∀ e w, unlock current s = (Except.error e, s1, w) → s1 = s ∧ w = []) ∧
    (∀ e, read current s env = some (Except.error e, s1) → s1 = s) ∧
    (∀ e, write current s env = some (Except.error e, s1) → s1 = s) ∧
    (∀ e, destroy s = (Except.error e, s1) → s1 = s) := by
  refine ⟨fun e h => ?_, fun e h => ?_, fun e w h => read_unlock_error_atomic h,
    fun e w h => write_unlock_error_atomic h, fun e w h => ?_,
    fun e h => ?_, fun e h => ?_, fun e h => ?_⟩
  · unfold try_read at h
    split_ifs at h with h1
    · rw [Prod.mk.injEq] at h
      exact Except.noConfusion h.1
    · rw [Prod.mk.injEq] at h
      exact h.2.symm
  · unfold try_write at h
    split_ifs at h with h1
    · rw [Prod.mk.injEq] at h
      exact Except.noConfusion h.1
    · rw [Prod.mk.injEq] at h
      exact h.2.symm
  · unfold unlock at h
    split_ifs at h with h1
    · exact write_unlock_error_atomic h
    · exact read_unlock_error_atomic h
  · unfold read at h
    split_ifs at h with h1 h2
    · rw [Option.some.injEq, Prod.mk.injEq] at h
      exact Except.noConfusion h.1
    · rw [Option.some.injEq, Prod.mk.injEq] at h
      exact h.2.symm
    · exact Except.noConfusion (read_loop_ok current env _ _ h)
  · unfold write at h
    split_ifs at h with h1 h2
    · rw [Option.some.injEq, Prod.mk.injEq] at h
      exact Except.noConfusion h.1
    · rw [Option.some.injEq, Prod.mk.injEq] at h
      exact h.2.symm
    · exact Except.noConfusion (write_loop_ok current env _ _ h)
  · unfold destroy at h
    split_ifs at h with h1
    · rw [Prod.mk.injEq] at h
      exact h.2.symm
    · rw [Prod.mk.injEq] at h
      exact Except.noConfusion h.1

theorem error_atomicity_witness :
    try_read (⟨0, 0, 7, [], []⟩ : RwLockInner) =
      (Except.error EBUSY, (⟨0, 0, 7, [], []⟩ : RwLockInner)) ∧
    ((⟨0, 0, 7, [], []⟩ : RwLockInner) = (⟨0, 0, 7, [], []⟩ : RwLockInner)) :=
  ⟨rfl, (error_atomicity 3 ⟨0, 0, 7, [], []⟩ ⟨0, 0, 7, [], []⟩ []).1 EBUSY rfl⟩

end RwLockInner
